import Mathlib

/-!
Shallow embedding of `thousandeyes/resource_stream.go` (terraform-provider-thousandeyes):
the `Stream` entity, the hand-rolled v7 HTTP client adapter (`NewStreamClientFrom`,
`do`, `decodeJSON`), the four CRUD operations, and the Terraform resource handlers.

Modelling conventions:
  * The HTTP transport (`Client.HTTPClient.Do`) is a function from the built request to
    `Except String HttpResponse`; a `.error` models a network/transport failure.
  * A response body is modelled by its parse outcome: either a well-formed JSON document
    or malformed bytes (which also covers an empty body, where decoding yields EOF).
  * The request body is the marshalled JSON document (`Option Json`; `none` would be a
    bodyless request). `json.Marshal` is modelled by `marshalStream` / `marshalPayload`;
    it cannot fail on `Stream` or `nil`, so the marshal-error branch of `do` is dead.
  * Each CRUD operation additionally returns the number of times `resp.Body.Close()` was
    invoked on the single response obtained in that operation. The only closer in the
    source is the `defer resp.Body.Close()` in `decodeJSON`, which closes exactly once
    on every exit path of `decodeJSON`.
  * The rate limiter wait (`sc.c.Limiter.Wait()`) is a pure timing effect with no
    value-level consequence; the `Limiter` configuration field is carried but the wait
    itself is not observable in the embedding.
-/

set_option autoImplicit false

namespace ThousandEyes

/-- JSON documents, as produced by `encoding/json`. -/
inductive Json where
  | null
  | str (value : String)
  | bool (value : Bool)
  | num (value : Int)
  | arr (elements : List Json)
  | obj (members : List (String × Json))

/-- Embeds `StreamTestMatch` (fields tagged `json:"id,omitempty"`, `json:"domain,omitempty"`). -/
structure StreamTestMatch where
  ID : String := ""
  Domain : String := ""
deriving DecidableEq

/-- Embeds `StreamTagMatch` (fields tagged `json:"key,omitempty"`, `json:"value,omitempty"`). -/
structure StreamTagMatch where
  Key : String := ""
  Value : String := ""
deriving DecidableEq

/-- Embeds the `Stream` struct. Go's `Type` field is called `Type'` because `Type` is a
Lean keyword; defaults are the Go zero values. Slices are `List` (Go's `nil` slice and
the empty slice coincide in the embedding). -/
structure Stream where
  ID : String := ""
  Enabled : Bool := false
  Type' : String := ""
  EndpointType : String := ""
  StreamEndpointUrl : String := ""
  DataModelVersion : String := ""
  TestMatch : List StreamTestMatch := []
  TagMatch : List StreamTagMatch := []
deriving DecidableEq

/-! ### json.Marshal on Stream (struct tags with omitempty) -/

/-- Marshalling of one `StreamTestMatch`: `omitempty` drops zero-valued fields. -/
def marshalTestMatch (t : StreamTestMatch) : Json :=
  .obj ((if t.ID = "" then [] else [("id", Json.str t.ID)]) ++
    (if t.Domain = "" then [] else [("domain", Json.str t.Domain)]))

/-- Marshalling of one `StreamTagMatch`: `omitempty` drops zero-valued fields. -/
def marshalTagMatch (t : StreamTagMatch) : Json :=
  .obj ((if t.Key = "" then [] else [("key", Json.str t.Key)]) ++
    (if t.Value = "" then [] else [("value", Json.str t.Value)]))

/-- Marshalling of a `Stream`, following the struct tags in declaration order; every
field carries `omitempty`, so zero-valued fields (empty string, `false`, empty slice)
are omitted from the object. -/
def marshalStream (s : Stream) : Json :=
  .obj ((if s.ID = "" then [] else [("id", Json.str s.ID)]) ++
    (if s.Enabled = false then [] else [("enabled", Json.bool s.Enabled)]) ++
    (if s.Type' = "" then [] else [("type", Json.str s.Type')]) ++
    (if s.EndpointType = "" then [] else [("endpointType", Json.str s.EndpointType)]) ++
    (if s.StreamEndpointUrl = "" then []
     else [("streamEndpointUrl", Json.str s.StreamEndpointUrl)]) ++
    (if s.DataModelVersion = "" then []
     else [("dataModelVersion", Json.str s.DataModelVersion)]) ++
    (if s.TestMatch = [] then []
     else [("testMatch", Json.arr (s.TestMatch.map marshalTestMatch))]) ++
    (if s.TagMatch = [] then []
     else [("tagMatch", Json.arr (s.TagMatch.map marshalTagMatch))]))

/-! ### json.Unmarshal / Decoder.Decode into Stream

`encoding/json` semantics: a JSON object assigns matching keys in order (unknown keys
are ignored, absent fields keep the target's current value); JSON `null` into a string
or bool field has no effect; JSON `null` into a slice sets it to nil; a type mismatch
is an error; a top-level `null` leaves the whole target untouched. -/

/-- Decoding a JSON value into a string field holding `cur`. -/
def asString (cur : String) : Json → Except String String
  | .str v => .ok v
  | .null => .ok cur
  | _ => .error "json: cannot unmarshal value into field of type string"

/-- Decoding a JSON value into a bool field holding `cur`. -/
def asBool (cur : Bool) : Json → Except String Bool
  | .bool v => .ok v
  | .null => .ok cur
  | _ => .error "json: cannot unmarshal value into field of type bool"

/-- Assigning one JSON object member to the matching `StreamTestMatch` field. -/
def setTestMatchField (t : StreamTestMatch) (kv : String × Json) :
    Except String StreamTestMatch :=
  match kv with
  | ("id", v) => (asString t.ID v).map fun x => { t with ID := x }
  | ("domain", v) => (asString t.Domain v).map fun x => { t with Domain := x }
  | _ => .ok t

/-- Decoding one JSON value into a `StreamTestMatch`. -/
def decodeTestMatchJson : Json → Except String StreamTestMatch
  | .obj fs => fs.foldlM setTestMatchField {}
  | .null => .ok {}
  | _ => .error "json: cannot unmarshal value into StreamTestMatch"

/-- Decoding a JSON array element-by-element into a `StreamTestMatch` slice,
stopping at the first element error, as the `encoding/json` array decoder does. -/
def decodeTestMatchList : List Json → Except String (List StreamTestMatch)
  | [] => .ok []
  | x :: xs => do
    let h ← decodeTestMatchJson x
    let t ← decodeTestMatchList xs
    pure (h :: t)

/-- Assigning one JSON object member to the matching `StreamTagMatch` field. -/
def setTagMatchField (t : StreamTagMatch) (kv : String × Json) :
    Except String StreamTagMatch :=
  match kv with
  | ("key", v) => (asString t.Key v).map fun x => { t with Key := x }
  | ("value", v) => (asString t.Value v).map fun x => { t with Value := x }
  | _ => .ok t

/-- Decoding one JSON value into a `StreamTagMatch`. -/
def decodeTagMatchJson : Json → Except String StreamTagMatch
  | .obj fs => fs.foldlM setTagMatchField {}
  | .null => .ok {}
  | _ => .error "json: cannot unmarshal value into StreamTagMatch"

/-- Decoding a JSON array element-by-element into a `StreamTagMatch` slice. -/
def decodeTagMatchList : List Json → Except String (List StreamTagMatch)
  | [] => .ok []
  | x :: xs => do
    let h ← decodeTagMatchJson x
    let t ← decodeTagMatchList xs
    pure (h :: t)

/-- Decoding a JSON value into the `TestMatch` slice field (JSON `null` sets a slice
to nil). -/
def asTestMatchList : Json → Except String (List StreamTestMatch)
  | .arr xs => decodeTestMatchList xs
  | .null => .ok []
  | _ => .error "json: cannot unmarshal value into field of type slice"

/-- Decoding a JSON value into the `TagMatch` slice field. -/
def asTagMatchList : Json → Except String (List StreamTagMatch)
  | .arr xs => decodeTagMatchList xs
  | .null => .ok []
  | _ => .error "json: cannot unmarshal value into field of type slice"

/-- Assigning one JSON object member to the matching `Stream` field, by struct tag. -/
def setStreamField (s : Stream) (kv : String × Json) : Except String Stream :=
  match kv with
  | ("id", v) => (asString s.ID v).map fun x => { s with ID := x }
  | ("enabled", v) => (asBool s.Enabled v).map fun x => { s with Enabled := x }
  | ("type", v) => (asString s.Type' v).map fun x => { s with Type' := x }
  | ("endpointType", v) => (asString s.EndpointType v).map fun x => { s with EndpointType := x }
  | ("streamEndpointUrl", v) =>
    (asString s.StreamEndpointUrl v).map fun x => { s with StreamEndpointUrl := x }
  | ("dataModelVersion", v) =>
    (asString s.DataModelVersion v).map fun x => { s with DataModelVersion := x }
  | ("testMatch", v) => (asTestMatchList v).map fun x => { s with TestMatch := x }
  | ("tagMatch", v) => (asTagMatchList v).map fun x => { s with TagMatch := x }
  | _ => .ok s

/-- Decoding one JSON document into a `Stream` (the target starts at its zero value,
as `var target Stream` does at every call site). -/
def decodeStreamJson : Json → Except String Stream
  | .obj fs => fs.foldlM setStreamField {}
  | .null => .ok {}
  | _ => .error "json: cannot unmarshal value into Stream"

/-- Keys of a JSON object (used to state which fields an encoding carries). -/
def objKeys : Json → List String
  | .obj fs => fs.map Prod.fst
  | _ => []

/-! ### Client configuration and the request/response model -/

/-- Parse outcome of a response body: a well-formed JSON document, or malformed bytes
(also covering an empty body, where the decoder reports EOF). -/
inductive BodyContent where
  | json (j : Json)
  | malformed

/-- An HTTP response as seen by this layer: status code plus body. -/
structure HttpResponse where
  statusCode : Nat
  body : BodyContent

/-- The HTTP request built by `do`: method, URL (endpoint + path + ".json"), decoded
query parameters, headers as set via `req.Header.Set`, and the marshalled JSON body
(`none` would be a bodyless request). -/
structure HttpRequest where
  method : String
  url : String
  query : List (String × String) := []
  headers : List (String × String) := []
  body : Option Json := none

/-- The fields of `thousandeyes.Client` this code reads: `APIEndpoint`,
`AccountGroupID`, `AuthToken`, `UserAgent`, the rate limiter (modelled by its
presence), and the HTTP transport `HTTPClient.Do`. -/
structure Client where
  APIEndpoint : String := ""
  AuthToken : String := ""
  UserAgent : String := ""
  AccountGroupID : String := ""
  Limiter : Bool := false
  HTTPClient : HttpRequest → Except String HttpResponse := fun _ => .error "no transport"

/-- Embeds `StreamClient`: a wrapper holding the derived v7 client. -/
structure StreamClient where
  c : Client

/-- Models `strings.ReplaceAll s "v6" "v7"`: scan left to right, replacing
non-overlapping occurrences of the two-character pattern. -/
def replaceV6 : List Char → List Char
  | [] => []
  | [c] => [c]
  | c :: d :: rest =>
    if c = 'v' ∧ d = '6' then 'v' :: '7' :: replaceV6 rest
    else c :: replaceV6 (d :: rest)

/-- String-level wrapper for `replaceV6`. -/
def replaceAllV6V7 (s : String) : String :=
  ⟨replaceV6 s.data⟩

/-- Whether a character list contains the pattern "v6" (an occurrence of the
substring). -/
def hasV6 : List Char → Bool
  | [] => false
  | [_] => false
  | c :: d :: rest => if c = 'v' ∧ d = '6' then true else hasV6 (d :: rest)

/-- Embeds `NewStreamClientFrom`: copy the v6 client, rewrite every "v6" in its
`APIEndpoint` to "v7", and wrap the copy. -/
def NewStreamClientFrom (v6 : Client) : StreamClient :=
  { c := { v6 with APIEndpoint := replaceAllV6V7 v6.APIEndpoint } }

/-! ### The adapter: do() and decodeJSON() -/

/-- Payload of a request: `nil` (for `GetStream`/`DeleteStream`) or a `Stream`. -/
def marshalPayload : Option Stream → Json
  | none => Json.null
  | some s => marshalStream s

/-- Errors of the adapter and the CRUD operations, mirroring the `fmt.Errorf` sites:
transport failure, the generic range rejection in `do` (carrying the code), the
operation-specific rejection (carrying the operation name and the code), and a wrapped
decode failure. -/
inductive StreamError where
  | transport (msg : String)
  | unexpectedStatus (code : Nat)
  | opUnexpectedStatus (op : String) (code : Nat)
  | decodeError (msg : String)
deriving DecidableEq

/-- Request construction inside `do` (lines 59-73): URL = `APIEndpoint + path +
".json"`; the `aid` query parameter exactly when `AccountGroupID` is non-empty; the
four headers; body = marshalled payload (`json.Marshal(nil)` yields the document
`null`, and `http.NewRequest` is always given that buffer, so the request is never
bodyless). -/
def buildRequest (sc : StreamClient) (method path : String) (payload : Option Stream) :
    HttpRequest :=
  { method := method
    url := sc.c.APIEndpoint ++ path ++ ".json"
    query := if sc.c.AccountGroupID ≠ "" then [("aid", sc.c.AccountGroupID)] else []
    headers := [("accept", "application/json"),
                ("authorization", "Bearer " ++ sc.c.AuthToken),
                ("content-type", "application/json"),
                ("user-agent", sc.c.UserAgent)]
    body := some (marshalPayload payload) }

/-- Embeds `do` (named `doRequest` because `do` is a Lean keyword): wait on the
limiter (unobservable), build the request, run the transport, then reject any status
outside [200,299] (`199 >= code || 300 <= code`) without touching the body. -/
def doRequest (sc : StreamClient) (method path : String) (payload : Option Stream) :
    Except StreamError HttpResponse :=
  match sc.c.HTTPClient (buildRequest sc method path payload) with
  | .error msg => .error (.transport msg)
  | .ok resp =>
    if 199 ≥ resp.statusCode ∨ 300 ≤ resp.statusCode then
      .error (.unexpectedStatus resp.statusCode)
    else .ok resp

/-- Embeds `decodeJSON`: decode the body into a `Stream`; the deferred
`resp.Body.Close()` closes the body exactly once on every exit path, which the second
component records. -/
def decodeJSON (resp : HttpResponse) : Except String Stream × Nat :=
  (match resp.body with
   | .json j => decodeStreamJson j
   | .malformed => .error "invalid JSON document",
   1)

/-! ### CRUD operations

Each returns its Go result paired with the number of `Body.Close()` calls performed on
the response of this operation (0 when the transport itself failed and no response
exists). -/

/-- Embeds `CreateStream`: POST `/stream`, require status exactly 201, then decode. -/
def CreateStream (sc : StreamClient) (s : Stream) : Except StreamError Stream × Nat :=
  match doRequest sc "POST" "/stream" (some s) with
  | .error e => (.error e, 0)
  | .ok resp =>
    if resp.statusCode ≠ 201 then
      (.error (.opUnexpectedStatus "create" resp.statusCode), 0)
    else
      match decodeJSON resp with
      | (.error m, n) => (.error (.decodeError m), n)
      | (.ok target, n) => (.ok target, n)

/-- Embeds `GetStream`: GET `/stream/{id}` with nil payload, require status exactly
200, then decode. -/
def GetStream (sc : StreamClient) (id : String) : Except StreamError Stream × Nat :=
  match doRequest sc "GET" ("/stream/" ++ id) none with
  | .error e => (.error e, 0)
  | .ok resp =>
    if resp.statusCode ≠ 200 then
      (.error (.opUnexpectedStatus "get" resp.statusCode), 0)
    else
      match decodeJSON resp with
      | (.error m, n) => (.error (.decodeError m), n)
      | (.ok target, n) => (.ok target, n)

/-- Embeds `UpdateStream`: PUT `/stream/{id}`, require status exactly 200, then
decode. -/
def UpdateStream (sc : StreamClient) (id : String) (s : Stream) :
    Except StreamError Stream × Nat :=
  match doRequest sc "PUT" ("/stream/" ++ id) (some s) with
  | .error e => (.error e, 0)
  | .ok resp =>
    if resp.statusCode ≠ 200 then
      (.error (.opUnexpectedStatus "update" resp.statusCode), 0)
    else
      match decodeJSON resp with
      | (.error m, n) => (.error (.decodeError m), n)
      | (.ok target, n) => (.ok target, n)

/-- Embeds `DeleteStream`: DELETE `/stream/{id}` with nil payload, require status
exactly 204, and return without ever decoding (hence never closing) the body. -/
def DeleteStream (sc : StreamClient) (id : String) : Except StreamError Unit × Nat :=
  match doRequest sc "DELETE" ("/stream/" ++ id) none with
  | .error e => (.error e, 0)
  | .ok resp =>
    if resp.statusCode ≠ 204 then
      (.error (.opUnexpectedStatus "delete" resp.statusCode), 0)
    else (.ok (), 0)

/-! ### Terraform resource handlers -/

/-- The declarative resource representation (`*schema.ResourceData`): the stored ID
(`d.Id()` / `d.SetId`) and the attribute bag, modelled by the `Stream` it currently
describes. -/
structure ResourceData where
  id : String := ""
  attrs : Option Stream := none

/-- Modelled from the spec: `ResourceRead` (defined in the repository outside this
file) "populate[s] the declarative representation from the fetched entity"; it does
not touch the stored ID. -/
def ResourceRead (d : ResourceData) (remote : Stream) : ResourceData × Option StreamError :=
  ({ d with attrs := some remote }, none)

/-- Modelled from the spec: `ResourceBuildStruct` (defined in the repository outside
this file) "build[s] a Stream from the declarative representation". -/
def buildStreamStruct (d : ResourceData) : Stream :=
  d.attrs.getD {}

/-- Embeds `resourceStreamRead`: fetch by the stored ID; on failure clear the ID and
return the failure; on success populate the representation from the fetched entity.
Handlers return the mutated representation together with the Go error value. -/
def resourceStreamRead (m : Client) (d : ResourceData) : ResourceData × Option StreamError :=
  let streamClient := NewStreamClientFrom m
  match (GetStream streamClient d.id).1 with
  | .error e => ({ d with id := "" }, some e)
  | .ok remote => ResourceRead d remote

/-- Embeds `resourceStreamCreate`: build the entity, create it, store the assigned ID,
then re-invoke the Read handler; on failure return the error without setting the ID. -/
def resourceStreamCreate (m : Client) (d : ResourceData) : ResourceData × Option StreamError :=
  let streamClient := NewStreamClientFrom m
  let localStream := buildStreamStruct d
  match (CreateStream streamClient localStream).1 with
  | .error e => (d, some e)
  | .ok remote => resourceStreamRead m { d with id := remote.ID }

/-- Embeds `resourceStreamDelete`: delete by the stored ID; on failure return the
error (ID untouched); on success clear the ID. -/
def resourceStreamDelete (m : Client) (d : ResourceData) : ResourceData × Option StreamError :=
  let streamClient := NewStreamClientFrom m
  match (DeleteStream streamClient d.id).1 with
  | .error e => (d, some e)
  | .ok _ => ({ d with id := "" }, none)

/-! ### Theorems -/

/-- C2: for every request whose transport call succeeds, `do` fails with an
`UnexpectedStatusError` carrying the response code if and only if the status code is
outside [200,299]; any in-range status returns the response without error. -/
theorem claim2_do_status_range (sc : StreamClient) (method path : String)
    (payload : Option Stream) (resp : HttpResponse)
    (h : sc.c.HTTPClient (buildRequest sc method path payload) = .ok resp) :
    (doRequest sc method path payload =
        .error (.unexpectedStatus resp.statusCode) ↔
      resp.statusCode < 200 ∨ 300 ≤ resp.statusCode) ∧
    (200 ≤ resp.statusCode → resp.statusCode ≤ 299 →
      doRequest sc method path payload = .ok resp) := by
  have hdo : doRequest sc method path payload =
      if 199 ≥ resp.statusCode ∨ 300 ≤ resp.statusCode then
        .error (.unexpectedStatus resp.statusCode)
      else .ok resp := by
    unfold doRequest
    rw [h]
  constructor
  · rw [hdo]
    by_cases hc : 199 ≥ resp.statusCode ∨ 300 ≤ resp.statusCode
    · simp only [hc, if_true, true_iff, iff_true]
      omega
    · simp only [hc, if_false, iff_false]
      constructor
      · intro hcon
        exact Except.noConfusion hcon
      · omega
  · intro h1 h2
    rw [hdo]
    have hc : ¬(199 ≥ resp.statusCode ∨ 300 ≤ resp.statusCode) := by omega
    simp [hc]

/-- Shared mock configuration: a v7 client whose transport always answers with status
200 and a malformed body. -/
def witClient200 : Client :=
  { APIEndpoint := "https://api.thousandeyes.com/v7"
    AuthToken := "token"
    UserAgent := "agent"
    AccountGroupID := ""
    Limiter := false
    HTTPClient := fun _ => .ok { statusCode := 200, body := .malformed } }

/-- Shared mock configuration: transport always answers 404. -/
def witClient404 : Client :=
  { witClient200 with HTTPClient := fun _ => .ok { statusCode := 404, body := .malformed } }

/-- C2 witness: a 404 response to a concrete GET is rejected by `do` with
`UnexpectedStatusError 404`. -/
theorem claim2_witness :
    doRequest ⟨witClient404⟩ "GET" "/stream/s-1" none = .error (.unexpectedStatus 404) := by
  have h := claim2_do_status_range ⟨witClient404⟩ "GET" "/stream/s-1" none
    { statusCode := 404, body := .malformed } rfl
  exact h.1.mpr (by decide)

/-- C1: two-tier status check — whenever the transport yields a response whose status
the adapter's generic [200,299] check accepts, each CRUD operation still fails with
its operation-specific `UnexpectedStatusError` (naming the operation and the observed
code) unless the status equals the exact expected code: Create 201, Get 200, Update
200, Delete 204. -/
theorem claim1_two_tier_status (sc : StreamClient) (s : Stream) (id : String)
    (resp : HttpResponse) (hlo : 200 ≤ resp.statusCode) (hhi : resp.statusCode ≤ 299) :
    (sc.c.HTTPClient (buildRequest sc "POST" "/stream" (some s)) = .ok resp →
      resp.statusCode ≠ 201 →
      (CreateStream sc s).1 = .error (.opUnexpectedStatus "create" resp.statusCode)) ∧
    (sc.c.HTTPClient (buildRequest sc "GET" ("/stream/" ++ id) none) = .ok resp →
      resp.statusCode ≠ 200 →
      (GetStream sc id).1 = .error (.opUnexpectedStatus "get" resp.statusCode)) ∧
    (sc.c.HTTPClient (buildRequest sc "PUT" ("/stream/" ++ id) (some s)) = .ok resp →
      resp.statusCode ≠ 200 →
      (UpdateStream sc id s).1 = .error (.opUnexpectedStatus "update" resp.statusCode)) ∧
    (sc.c.HTTPClient (buildRequest sc "DELETE" ("/stream/" ++ id) none) = .ok resp →
      resp.statusCode ≠ 204 →
      (DeleteStream sc id).1 = .error (.opUnexpectedStatus "delete" resp.statusCode)) := by
  have hrange : ¬(199 ≥ resp.statusCode ∨ 300 ≤ resp.statusCode) := by omega
  refine ⟨?_, ?_, ?_, ?_⟩ <;> intro ht hne <;>
    simp [CreateStream, GetStream, UpdateStream, DeleteStream, doRequest, ht, hrange, hne]

/-- C1 witness: a 200 response to `CreateStream`, which `do` accepts, is still
rejected with the operation-specific error naming "create" and code 200. -/
theorem claim1_witness :
    (CreateStream ⟨witClient200⟩ {}).1 = .error (.opUnexpectedStatus "create" 200) :=
  (claim1_two_tier_status ⟨witClient200⟩ {} "s-1"
    { statusCode := 200, body := .malformed } (by decide) (by decide)).1 rfl (by decide)

/-- C5: shape of every request built by `do` — URL is base endpoint + path +
".json"; the `aid` query parameter appears exactly when an account group is
configured, carrying that identifier; and the headers are exactly the four set by the
source. -/
theorem claim5_request_shape (sc : StreamClient) (method path : String)
    (payload : Option Stream) :
    (buildRequest sc method path payload).url = sc.c.APIEndpoint ++ path ++ ".json" ∧
    (∀ x, ("aid", x) ∈ (buildRequest sc method path payload).query ↔
      (sc.c.AccountGroupID ≠ "" ∧ x = sc.c.AccountGroupID)) ∧
    (buildRequest sc method path payload).headers =
      [("accept", "application/json"),
       ("authorization", "Bearer " ++ sc.c.AuthToken),
       ("content-type", "application/json"),
       ("user-agent", sc.c.UserAgent)] := by
  refine ⟨rfl, ?_, rfl⟩
  intro x
  by_cases hg : sc.c.AccountGroupID = "" <;>
    simp [buildRequest, hg, eq_comm]

/-- C4 counterexample: with a nil payload the built request is not bodyless — its body
is the marshalled JSON document `null` (the four bytes `json.Marshal(nil)` produces),
not an absent body. -/
theorem claim4_counterexample :
    (buildRequest ⟨witClient200⟩ "GET" "/stream/s-123" none).body = some Json.null ∧
    (buildRequest ⟨witClient200⟩ "GET" "/stream/s-123" none).body ≠ none := by
  refine ⟨rfl, ?_⟩
  simp [buildRequest]

/-- C4 amended: when the payload argument is nil (as for `GetStream` and
`DeleteStream`), the request issued by `do` carries the JSON document `null` as its
body (`json.Marshal(nil)` = "null" handed to `bytes.NewBuffer`), rather than an empty
body. -/
theorem claim4_amended (sc : StreamClient) (method path : String) :
    (buildRequest sc method path none).body = some Json.null := rfl

/-- Shared mock configuration: transport always answers 204 with an empty/malformed
body. -/
def witClient204 : Client :=
  { witClient200 with HTTPClient := fun _ => .ok { statusCode := 204, body := .malformed } }

/-- C3: `decodeJSON` does close the body exactly once on both of its exit paths, but
the code leaves the body unclosed (0 closes) on every path that skips `decodeJSON`:
`DeleteStream` even on success (204), a CRUD operation rejecting an in-range but
unexpected status (Create seeing 200), and `do` rejecting an out-of-range status
(404) — contradicting the release-exactly-once claim. -/
theorem claim3_body_close_bug :
    (∀ resp, (decodeJSON resp).2 = 1) ∧
    DeleteStream ⟨witClient204⟩ "s-123" = (.ok (), 0) ∧
    CreateStream ⟨witClient200⟩ {} = (.error (.opUnexpectedStatus "create" 200), 0) ∧
    doRequest ⟨witClient404⟩ "GET" "/stream/s-123" none =
      .error (.unexpectedStatus 404) :=
  ⟨fun _ => rfl, rfl, rfl, rfl⟩

/-- Heads are preserved by `replaceV6` (the replacement starts with the same first
character the pattern does only when the pattern matched at the head). -/
theorem replaceV6_head (l : List Char) : (replaceV6 l).head? = l.head? := by
  match l with
  | [] => rfl
  | [c] => rfl
  | c :: d :: rest =>
    rw [replaceV6]
    by_cases h : c = 'v' ∧ d = '6'
    · rw [if_pos h]
      simp [h.1]
    · rw [if_neg h]
      rfl

/-- Scanning for "v6" skips a head character that is not 'v'. -/
theorem hasV6_cons_of_ne (c : Char) (xs : List Char) (h : ¬c = 'v') :
    hasV6 (c :: xs) = hasV6 xs := by
  match xs with
  | [] => rfl
  | d :: rest =>
    rw [hasV6, if_neg]
    intro hc
    exact h hc.1

/-- After `replaceV6` no occurrence of "v6" remains: every occurrence was replaced. -/
theorem hasV6_replaceV6 (l : List Char) : hasV6 (replaceV6 l) = false := by
  induction l using replaceV6.induct with
  | case1 => rfl
  | case2 c => rfl
  | case3 c d rest h ih =>
    rw [replaceV6, if_pos h, hasV6, if_neg (by decide),
      hasV6_cons_of_ne '7' _ (by decide)]
    exact ih
  | case4 c d rest h ih =>
    rw [replaceV6, if_neg h]
    obtain ⟨ys, hys⟩ : ∃ ys, replaceV6 (d :: rest) = d :: ys := by
      have hh := replaceV6_head (d :: rest)
      cases he : replaceV6 (d :: rest) with
      | nil => rw [he] at hh; simp at hh
      | cons a as =>
        rw [he] at hh
        simp at hh
        subst hh
        exact ⟨as, rfl⟩
    rw [hys, hasV6, if_neg h, ← hys]
    exact ih

/-- C10: `NewStreamClientFrom` returns a client whose `APIEndpoint` is the original
with every (non-overlapping) occurrence of "v6" replaced by "v7" — afterwards no "v6"
remains anywhere in the endpoint, not only in the version path segment — while every
other configuration field is carried over unchanged; being a pure function of the
value of `v6`, it leaves the original client untouched and the copy shares no mutable
endpoint state with it. The final conjunct exhibits replacement of an occurrence
outside the version path segment. -/
theorem claim10_new_stream_client (v6 : Client) :
    (NewStreamClientFrom v6).c.APIEndpoint = replaceAllV6V7 v6.APIEndpoint ∧
    hasV6 (NewStreamClientFrom v6).c.APIEndpoint.data = false ∧
    (NewStreamClientFrom v6).c.AuthToken = v6.AuthToken ∧
    (NewStreamClientFrom v6).c.UserAgent = v6.UserAgent ∧
    (NewStreamClientFrom v6).c.AccountGroupID = v6.AccountGroupID ∧
    (NewStreamClientFrom v6).c.Limiter = v6.Limiter ∧
    (NewStreamClientFrom v6).c.HTTPClient = v6.HTTPClient ∧
    replaceAllV6V7 "https://v6.api.example.com/v6" = "https://v7.api.example.com/v7" := by
  refine ⟨rfl, ?_, rfl, rfl, rfl, rfl, rfl, by decide⟩
  exact hasV6_replaceV6 v6.APIEndpoint.data

/-- C6: the Read handler clears the stored ID and returns the same failure whenever
`GetStream` fails for any reason, and on success leaves the ID unchanged while
populating the representation from the fetched entity. -/
theorem claim6_read_handler (m : Client) (d : ResourceData) :
    (∀ e, (GetStream (NewStreamClientFrom m) d.id).1 = .error e →
      resourceStreamRead m d = ({ d with id := "" }, some e)) ∧
    (∀ remote, (GetStream (NewStreamClientFrom m) d.id).1 = .ok remote →
      resourceStreamRead m d = ({ d with attrs := some remote }, none)) := by
  constructor <;> intro r h <;> simp [resourceStreamRead, ResourceRead, h]

/-- Shared mock configuration: transport answers 200 with a well-formed stream
document. -/
def witStreamJson : Json :=
  Json.obj [("id", Json.str "s-123"), ("enabled", Json.bool true),
    ("type", Json.str "opentelemetry")]

/-- The stream value the mock document decodes to. -/
def witStream : Stream :=
  { ID := "s-123", Enabled := true, Type' := "opentelemetry" }

/-- Shared mock configuration: transport answers 200 with `witStreamJson`. -/
def witClientOk : Client :=
  { witClient200 with
    HTTPClient := fun _ => .ok { statusCode := 200, body := .json witStreamJson } }

/-- Shared mock configuration: transport answers 201 with `witStreamJson`. -/
def witClient201 : Client :=
  { witClient200 with
    HTTPClient := fun _ => .ok { statusCode := 201, body := .json witStreamJson } }

/-- C6 witness: a successful fetch populates the representation and keeps the ID; a
404 fetch clears the ID and surfaces the failure. -/
theorem claim6_witness :
    resourceStreamRead witClientOk { id := "s-1" } =
      ({ id := "s-1", attrs := some witStream }, none) ∧
    resourceStreamRead witClient404 { id := "s-1" } =
      ({ id := "" }, some (.unexpectedStatus 404)) :=
  ⟨(claim6_read_handler witClientOk { id := "s-1" }).2 witStream rfl,
   (claim6_read_handler witClient404 { id := "s-1" }).1 (.unexpectedStatus 404) rfl⟩

/-- C7: the Create handler builds the entity from the representation, calls
`CreateStream`, and on success stores the server-assigned ID and re-invokes the Read
handler; on failure it returns the error with the ID untouched. -/
theorem claim7_create_handler (m : Client) (d : ResourceData) :
    (∀ e, (CreateStream (NewStreamClientFrom m) (buildStreamStruct d)).1 = .error e →
      resourceStreamCreate m d = (d, some e)) ∧
    (∀ remote, (CreateStream (NewStreamClientFrom m) (buildStreamStruct d)).1 = .ok remote →
      resourceStreamCreate m d = resourceStreamRead m { d with id := remote.ID }) := by
  constructor <;> intro r h <;> simp [resourceStreamCreate, h]

/-- C7 witness: a rejected create (status 200, expected 201) leaves the
representation as it was and surfaces the error; a successful create (201) stores the
assigned ID "s-123" and re-runs the Read handler. -/
theorem claim7_witness :
    resourceStreamCreate witClient200 { id := "" } =
      ({ id := "" }, some (.opUnexpectedStatus "create" 200)) ∧
    resourceStreamCreate witClient201 { id := "" } =
      resourceStreamRead witClient201 { id := "s-123" } :=
  ⟨(claim7_create_handler witClient200 { id := "" }).1
      (.opUnexpectedStatus "create" 200) rfl,
   (claim7_create_handler witClient201 { id := "" }).2 witStream rfl⟩

/-- C8: a 204 response makes `DeleteStream` succeed for any response body with zero
body closes — `decodeJSON` (the only closer and decoder) always reports one close, so
zero closes means no decode was ever attempted; the Delete handler clears the stored
ID exactly on `DeleteStream` success and leaves it unchanged on failure, surfacing
the error. -/
theorem claim8_delete (m : Client) (d : ResourceData) (id : String) :
    (∀ resp : HttpResponse,
      (NewStreamClientFrom m).c.HTTPClient
          (buildRequest (NewStreamClientFrom m) "DELETE" ("/stream/" ++ id) none) =
        .ok resp →
      resp.statusCode = 204 →
      DeleteStream (NewStreamClientFrom m) id = (.ok (), 0)) ∧
    ((DeleteStream (NewStreamClientFrom m) d.id).1 = .ok () →
      resourceStreamDelete m d = ({ d with id := "" }, none)) ∧
    (∀ e, (DeleteStream (NewStreamClientFrom m) d.id).1 = .error e →
      resourceStreamDelete m d = (d, some e)) := by
  refine ⟨?_, ?_, ?_⟩
  · intro resp ht h204
    simp [DeleteStream, doRequest, ht, h204]
  · intro h
    simp [resourceStreamDelete, h]
  · intro e h
    simp [resourceStreamDelete, h]

/-- C8 witness: deleting against a mock answering 204 with an empty/malformed body
succeeds with zero body closes and the handler clears the ID; against a mock
answering 404 the handler keeps the ID and surfaces the failure. -/
theorem claim8_witness :
    DeleteStream (NewStreamClientFrom witClient204) "s-123" = (.ok (), 0) ∧
    resourceStreamDelete witClient204 { id := "s-123" } = ({ id := "" }, none) ∧
    resourceStreamDelete witClient404 { id := "s-123" } =
      ({ id := "s-123" }, some (.unexpectedStatus 404)) :=
  ⟨(claim8_delete witClient204 { id := "s-123" } "s-123").1
      { statusCode := 204, body := .malformed } rfl rfl,
   (claim8_delete witClient204 { id := "s-123" } "x").2.1 rfl,
   (claim8_delete witClient404 { id := "s-123" } "x").2.2 (.unexpectedStatus 404) rfl⟩

/-- Marshalling then decoding one `StreamTestMatch` is the identity. -/
theorem decodeTestMatch_roundtrip (t : StreamTestMatch) :
    decodeTestMatchJson (marshalTestMatch t) = .ok t := by
  obtain ⟨i, d⟩ := t
  by_cases hi : i = "" <;> by_cases hd : d = "" <;>
    simp [marshalTestMatch, decodeTestMatchJson, setTestMatchField, asString,
      Except.map, Except.bind, Except.pure, Bind.bind, Pure.pure, Except.instMonad,
      List.foldlM, hi, hd]

/-- Marshalling then decoding a `StreamTestMatch` slice is the identity. -/
theorem decodeTestMatchList_roundtrip (ts : List StreamTestMatch) :
    decodeTestMatchList (ts.map marshalTestMatch) = .ok ts := by
  induction ts with
  | cons t rest ih =>
    simp [decodeTestMatchList, decodeTestMatch_roundtrip, ih,
      Except.map, Except.bind, Except.pure, Bind.bind, Pure.pure, Except.instMonad]
  | nil => rfl

/-- Marshalling then decoding one `StreamTagMatch` is the identity. -/
theorem decodeTagMatch_roundtrip (t : StreamTagMatch) :
    decodeTagMatchJson (marshalTagMatch t) = .ok t := by
  obtain ⟨k, v⟩ := t
  by_cases hk : k = "" <;> by_cases hv : v = "" <;>
    simp [marshalTagMatch, decodeTagMatchJson, setTagMatchField, asString,
      Except.map, Except.bind, Except.pure, Bind.bind, Pure.pure, Except.instMonad,
      List.foldlM, hk, hv]

/-- Marshalling then decoding a `StreamTagMatch` slice is the identity. -/
theorem decodeTagMatchList_roundtrip (ts : List StreamTagMatch) :
    decodeTagMatchList (ts.map marshalTagMatch) = .ok ts := by
  induction ts with
  | cons t rest ih =>
    simp [decodeTagMatchList, decodeTagMatch_roundtrip, ih,
      Except.map, Except.bind, Except.pure, Bind.bind, Pure.pure, Except.instMonad]
  | nil => rfl

set_option maxHeartbeats 2000000 in
/-- Marshalling then decoding a whole `Stream` is the identity, whichever fields sit
at their zero value. -/
theorem decodeStream_roundtrip (s : Stream) :
    decodeStreamJson (marshalStream s) = .ok s := by
  obtain ⟨i, en, ty, et, su, dm, tm, tg⟩ := s
  cases en <;>
    by_cases h1 : i = "" <;> by_cases h3 : ty = "" <;> by_cases h4 : et = "" <;>
    by_cases h5 : su = "" <;> by_cases h6 : dm = "" <;>
    by_cases h7 : tm = [] <;> by_cases h8 : tg = [] <;>
    simp [marshalStream, decodeStreamJson, setStreamField, asString, asBool,
      asTestMatchList, asTagMatchList, decodeTestMatchList_roundtrip,
      decodeTagMatchList_roundtrip, Except.map, Except.bind, Except.pure, Bind.bind, Pure.pure, Except.instMonad,
      List.foldlM, h1, h3, h4, h5, h6, h7, h8]

/-- Membership in the keys of one optional (omitempty) field segment. -/
theorem mem_map_fst_ite_nil {α : Type} (x : String) (c : Prop) [Decidable c]
    (k : String) (v : α) :
    (x ∈ (if c then ([] : List (String × α)) else [(k, v)]).map Prod.fst) ↔
      (¬c ∧ x = k) := by
  split <;> simp_all

/-- Characterization of the keys a marshalled `Stream` carries. -/
theorem mem_marshalStream_keys (s : Stream) (k : String) :
    k ∈ objKeys (marshalStream s) ↔
      ((¬s.ID = "" ∧ k = "id") ∨ (¬s.Enabled = false ∧ k = "enabled") ∨
       (¬s.Type' = "" ∧ k = "type") ∨ (¬s.EndpointType = "" ∧ k = "endpointType") ∨
       (¬s.StreamEndpointUrl = "" ∧ k = "streamEndpointUrl") ∨
       (¬s.DataModelVersion = "" ∧ k = "dataModelVersion") ∨
       (¬s.TestMatch = [] ∧ k = "testMatch") ∨ (¬s.TagMatch = [] ∧ k = "tagMatch")) := by
  simp only [marshalStream, objKeys, List.map_append, List.mem_append,
    mem_map_fst_ite_nil, or_assoc]

/-- C9: the JSON round-trip law for `Stream` — encoding then decoding yields an equal
value for every `Stream`; a field appears in the encoding exactly when it is not at
its zero value (in particular `enabled=false` and empty `testMatch`/`tagMatch` are
omitted and decode back as the zero value); and every key the encoder can emit comes
from the exact tag set id, enabled, type, endpointType, streamEndpointUrl,
dataModelVersion, testMatch (elements with keys among id, domain), tagMatch (elements
with keys among key, value). -/
theorem claim9_json_roundtrip (s : Stream) :
    decodeStreamJson (marshalStream s) = .ok s ∧
    (∀ k ∈ objKeys (marshalStream s),
      k ∈ ["id", "enabled", "type", "endpointType", "streamEndpointUrl",
        "dataModelVersion", "testMatch", "tagMatch"]) ∧
    ("id" ∈ objKeys (marshalStream s) ↔ ¬s.ID = "") ∧
    ("enabled" ∈ objKeys (marshalStream s) ↔ s.Enabled = true) ∧
    ("type" ∈ objKeys (marshalStream s) ↔ ¬s.Type' = "") ∧
    ("endpointType" ∈ objKeys (marshalStream s) ↔ ¬s.EndpointType = "") ∧
    ("streamEndpointUrl" ∈ objKeys (marshalStream s) ↔ ¬s.StreamEndpointUrl = "") ∧
    ("dataModelVersion" ∈ objKeys (marshalStream s) ↔ ¬s.DataModelVersion = "") ∧
    ("testMatch" ∈ objKeys (marshalStream s) ↔ ¬s.TestMatch = []) ∧
    ("tagMatch" ∈ objKeys (marshalStream s) ↔ ¬s.TagMatch = []) ∧
    (∀ t : StreamTestMatch, ∀ k ∈ objKeys (marshalTestMatch t), k ∈ ["id", "domain"]) ∧
    (∀ t : StreamTagMatch, ∀ k ∈ objKeys (marshalTagMatch t), k ∈ ["key", "value"]) := by
  refine ⟨decodeStream_roundtrip s, ?_, ?_, ?_, ?_, ?_, ?_, ?_, ?_, ?_, ?_, ?_⟩
  · intro k hk
    rw [mem_marshalStream_keys] at hk
    simp only [List.mem_cons, List.not_mem_nil, or_false]
    tauto
  · rw [mem_marshalStream_keys]
    simp
  · rw [mem_marshalStream_keys]
    simp
  · rw [mem_marshalStream_keys]
    simp
  · rw [mem_marshalStream_keys]
    simp
  · rw [mem_marshalStream_keys]
    simp
  · rw [mem_marshalStream_keys]
    simp
  · rw [mem_marshalStream_keys]
    simp
  · rw [mem_marshalStream_keys]
    simp
  · intro t k hk
    obtain ⟨ti, td⟩ := t
    by_cases hi : ti = "" <;> by_cases hd : td = "" <;>
      simp [marshalTestMatch, objKeys, hi, hd] at hk <;> simp_all
  · intro t k hk
    obtain ⟨tk, tv⟩ := t
    by_cases hk1 : tk = "" <;> by_cases hv : tv = "" <;>
      simp [marshalTagMatch, objKeys, hk1, hv] at hk <;> simp_all

end ThousandEyes
